import Mathlib

/-!
Verification of the face-recognition matching core of the AI-Face-Recognition-API
repository: the similarity scorer (`app/models/matcher.py`), the two successive
implementations of `recognize_user` (`app/services/recognition.py`, indexed pgvector
query; `benchmarks/patched_recognition.py`, exhaustive Python scan), and the
registration flow (`app/services/registration.py` together with the `get_db` session
scope of `app/api/deps.py`).

Floating-point vectors are modelled as lists of rationals; machine-float rounding is
outside the scope of the claims treated here.
-/

namespace FaceRec

/-- A face embedding (a 1-D `np.ndarray`) is modelled as a list of rationals. -/
abbrev Embedding := List ℚ

/-- `np.dot` of two equal-length 1-D arrays: the sum of pointwise products. -/
def dot (a b : Embedding) : ℚ := (List.zipWith (fun x y => x * y) a b).sum

/-- `fastapi.HTTPException(status_code, detail)`. -/
structure HTTPEx where
  status_code : Nat
  detail : String
deriving DecidableEq, Repr

/-- `app/schemas/recognize_schema.py` `RecognizeResponse`; the source field `match`
(a Lean keyword) is rendered `matched`. -/
structure RecognizeResponse where
  matched : Bool
  user_id : Option Nat
  similarity : ℚ
deriving DecidableEq, Repr

/-- `app/models/matcher.py` `InsightFaceMatcher` (state: the configured threshold,
reference value 0.7 from `app/api/deps.py`). -/
structure InsightFaceMatcher where
  threshold : ℚ
deriving DecidableEq, Repr

/-- `InsightFaceMatcher.similarity` (`app/models/matcher.py` lines 10-14): raises
`ValueError("Embeddings must have same shape")` when the shapes differ, otherwise
returns `np.dot(e1, e2)` unmodified. -/
def InsightFaceMatcher.similarity (_m : InsightFaceMatcher) (e1 e2 : Embedding) :
    Except String ℚ :=
  if e1.length = e2.length then .ok (dot e1 e2)
  else .error "Embeddings must have same shape"

/-- `InsightFaceMatcher.match` (`app/models/matcher.py` lines 16-17; `match` is a Lean
keyword, rendered `is_match`): `similarity(e1, e2) >= self.threshold`, propagating the
shape error. -/
def InsightFaceMatcher.is_match (m : InsightFaceMatcher) (e1 e2 : Embedding) :
    Except String Bool :=
  (m.similarity e1 e2).map (fun s => decide (m.threshold ≤ s))

/-- `app/db/models.py` `Face` row: primary key, owning user, pgvector embedding and
optional detection confidence. Identifiers are modelled as naturals. -/
structure Face where
  face_id : Nat
  user_id : Nat
  embedding : Embedding
  detection_score : Option ℚ
deriving DecidableEq, Repr

/-- `app/db/models.py` `User` row (the biometric identity). -/
structure User where
  user_id : Nat
  name : String
  surname : String
  auth_user_id : Nat
deriving DecidableEq, Repr

/-- The clamp `min(1.0, max(-1.0, s))` applied by both versions of `recognize_user`
to the similarity they report. -/
def clamp (s : ℚ) : ℚ := min 1 (max (-1) s)

/-- Outcome of the external embedding producer (`InsightFaceEmbedder.embed`,
`app/models/insightface.py`): a vector, or one of the detection exceptions. -/
inductive EmbedOutcome where
  | ok (embedding : Embedding)
  | noFace
  | multipleFaces (num_faces : Nat)
  | processingError (msg : String)
deriving DecidableEq, Repr

/-- The `MultipleFacesDetectedError` message (`app/utils/exceptions.py`). -/
def multipleFacesMsg (num_faces : Nat) : String :=
  "Expected 1 face, but detected " ++ toString num_faces ++ " faces"

namespace PatchedRecognition

/-- The Python similarity loop of `benchmarks/patched_recognition.py` lines 90-99:
`best_match` starts as `None` and `best_similarity` as `-1.0`; each face's similarity
to the query is computed and the running best is replaced only on a strict
improvement. A `ValueError` from the matcher aborts the loop. -/
def scanLoop (m : InsightFaceMatcher) (query : Embedding) :
    List Face → Option Face → ℚ → Except String (Option Face × ℚ)
  | [], best_match, best_similarity => .ok (best_match, best_similarity)
  | face :: rest, best_match, best_similarity =>
    match m.similarity query face.embedding with
    | .error e => .error e
    | .ok s =>
      if best_similarity < s then scanLoop m query rest (some face) s
      else scanLoop m query rest best_match best_similarity

/-- `recognize_user` of `benchmarks/patched_recognition.py` (Strategy A, exhaustive
scan), from the point where the query embedding is available; `faces` is the result
of `db.query(Face).join(User).all()`. An empty store returns the
`(match=False, user_id=None, similarity=0.0)` sentinel. A `ValueError` raised by the
matcher (shape mismatch) is caught only by the generic `except Exception` handler,
giving HTTP 500 "Recognition failed". -/
def recognize_user (m : InsightFaceMatcher) (faces : List Face) (query : Embedding) :
    Except HTTPEx RecognizeResponse :=
  if faces.isEmpty then .ok ⟨false, none, 0⟩
  else
    match scanLoop m query faces none (-1) with
    | .error _ => .error ⟨500, "Recognition failed"⟩
    | .ok (best_match, best_similarity) =>
      match best_match with
      | none => .ok ⟨false, none, clamp best_similarity⟩
      | some best =>
        match m.is_match query best.embedding with
        | .error _ => .error ⟨500, "Recognition failed"⟩
        | .ok true => .ok ⟨true, some best.user_id, clamp best_similarity⟩
        | .ok false => .ok ⟨false, none, clamp best_similarity⟩

end PatchedRecognition

namespace Recognition

/-- Modelled from the spec: pgvector's cosine-distance operator used by
`app/services/recognition.py` lives in the pgvector extension, not in this
repository. The spec (§4.2 and glossary) and the code comment at the call site define
it as `cosine distance = 1 − cosine similarity`, where cosine similarity of the
unit-normalized stored and query vectors (spec §3 store invariant) is their dot
product. -/
def cosine_distance (a b : Embedding) : ℚ := 1 - dot a b

/-- Modelled from the spec: the store's `ORDER BY distance ASC ... first()` top-1
nearest-neighbor query, answered exactly (the claim set assumes the index answers the
top-1 query exactly); among rows tying on the key the earliest row is kept. Returns
`none` exactly on an empty table. -/
def top1 (key : Face → ℚ) : List Face → Option Face
  | [] => none
  | f :: rest =>
    match top1 key rest with
    | none => some f
    | some g => if key f ≤ key g then some f else some g

/-- `recognize_user` of `app/services/recognition.py` (Strategy B, indexed query),
from the point where the query embedding is available. The single SQL query orders
faces by cosine distance to the query and fetches one row together with
`1 - cosine_distance` labelled `similarity`; the raw similarity is compared to the
threshold and the reported value is clamped. A dimension mismatch between the query
vector and the `Vector(512)` column raises inside the database and surfaces through
the `SQLAlchemyError` handler as HTTP 500 "Database error occurred"; on an empty
table the query returns no row without evaluating the operator. -/
def recognize_user (m : InsightFaceMatcher) (faces : List Face) (query : Embedding) :
    Except HTTPEx RecognizeResponse :=
  match top1 (fun f => cosine_distance query f.embedding) faces with
  | none => .ok ⟨false, none, 0⟩
  | some best_face =>
    if faces.all (fun f => f.embedding.length = query.length) then
      if m.threshold ≤ 1 - cosine_distance query best_face.embedding then
        .ok ⟨true, some best_face.user_id, clamp (1 - cosine_distance query best_face.embedding)⟩
      else
        .ok ⟨false, none, clamp (1 - cosine_distance query best_face.embedding)⟩
    else .error ⟨500, "Database error occurred"⟩

/-- The full `recognize_user` request path of `app/services/recognition.py`: image
validation and embedding extraction are external collaborators and enter as injected
outcomes (`validate_image`'s `ValueError` is caught explicitly there, giving HTTP
422). The Boolean records whether the database query was executed: in the source the
query runs unconditionally once an embedding exists — there is no dimension check
before it. -/
def recognize_request (validationError : Option String) (embed : EmbedOutcome)
    (m : InsightFaceMatcher) (faces : List Face) :
    Bool × Except HTTPEx RecognizeResponse :=
  match validationError with
  | some msg => (false, .error ⟨422, msg⟩)
  | none =>
    match embed with
    | .noFace => (false, .error ⟨422, "No face detected in the provided image"⟩)
    | .multipleFaces n => (false, .error ⟨422, multipleFacesMsg n⟩)
    | .processingError msg => (false, .error ⟨422, msg⟩)
    | .ok query => (true, recognize_user m faces query)

end Recognition

namespace Registration

/-- The durable database state: committed `users` and `faces` rows. -/
structure Store where
  users : List User
  faces : List Face
deriving DecidableEq, Repr

/-- `app/schemas/register_schema.py` `RegisterResponse`. -/
structure RegisterResponse where
  user_id : Nat
  is_registered : Bool
deriving DecidableEq, Repr

/-- `register_user` of `app/services/registration.py`: image validation, embedding
extraction and the database flush enter as injected outcomes (`validationError`,
`embed`, `flushError`); `newUserId` and `newFaceId` stand for the UUIDs generated at
flush. On success it returns the rows added to the session (pending, not yet
committed) together with the response; otherwise the `HTTPException` raised. Note a
`ValueError` from `validate_image` is caught only by the generic handler here (HTTP
500 "Registration failed"), the duplicate-`auth_user_id` check precedes any object
creation (HTTP 409), and a flush failure surfaces as HTTP 500 "Database error
occurred" with nothing committed. -/
def register_user (validationError : Option String) (embed : EmbedOutcome)
    (name surname : String) (auth_user_id : Nat) (newUserId newFaceId : Nat)
    (flushError : Bool) (db : Store) :
    Except HTTPEx (List User × List Face × RegisterResponse) :=
  match validationError with
  | some _ => .error ⟨500, "Registration failed"⟩
  | none =>
    match embed with
    | .noFace => .error ⟨422, "No face detected in the provided image"⟩
    | .multipleFaces n => .error ⟨422, multipleFacesMsg n⟩
    | .processingError msg => .error ⟨422, msg⟩
    | .ok embedding =>
      if db.users.any (fun u => u.auth_user_id == auth_user_id) then
        .error ⟨409, "Biometric data already registered. Delete existing profile first."⟩
      else
        let user : User := ⟨newUserId, name, surname, auth_user_id⟩
        let face : Face := ⟨newFaceId, user.user_id, embedding, none⟩
        if flushError then .error ⟨500, "Database error occurred"⟩
        else .ok ([user], [face], ⟨user.user_id, true⟩)

/-- The `/register` request path: the route handler runs `register_user` inside the
`get_db` session scope of `app/api/deps.py`, which commits the pending rows only when
the handler returns normally and commits nothing when an exception propagates (the
session is closed, discarding the uncommitted transaction). Returns the resulting
committed store and the HTTP outcome. -/
def register_request (validationError : Option String) (embed : EmbedOutcome)
    (name surname : String) (auth_user_id : Nat) (newUserId newFaceId : Nat)
    (flushError : Bool) (db : Store) : Store × Except HTTPEx RegisterResponse :=
  match register_user validationError embed name surname auth_user_id newUserId
      newFaceId flushError db with
  | .error e => (db, .error e)
  | .ok (us, fs, resp) => (⟨db.users ++ us, db.faces ++ fs⟩, .ok resp)

end Registration

/-! ### Helper lemmas -/

/-- Unfolding of `dot` on cons cells. -/
theorem dot_cons (x y : ℚ) (xs ys : List ℚ) :
    dot (x :: xs) (y :: ys) = x * y + dot xs ys := by
  simp [dot]

/-- The dot product is symmetric. -/
theorem dot_comm (a b : Embedding) : dot a b = dot b a := by
  induction a generalizing b with
  | nil => cases b <;> simp [dot]
  | cons x xs ih =>
    cases b with
    | nil => simp [dot]
    | cons y ys => rw [dot_cons, dot_cons, ih ys, mul_comm]

/-- The clamp never drops below -1. -/
theorem neg_one_le_clamp (s : ℚ) : -1 ≤ clamp s :=
  le_min (by norm_num) (le_max_left _ _)

/-- The clamp never exceeds 1. -/
theorem clamp_le_one (s : ℚ) : clamp s ≤ 1 := min_le_left _ _

/-- Values at or below -1 clamp to exactly -1. -/
theorem clamp_of_le_neg_one {s : ℚ} (h : s ≤ -1) : clamp s = -1 := by
  rw [clamp, max_eq_left h]
  exact min_eq_right (by norm_num)

/-- For a threshold inside (-1, 1], comparing the clamped similarity to the threshold
is the same as comparing the raw similarity. -/
theorem le_clamp_iff {t : ℚ} (s : ℚ) (h1 : -1 < t) (h2 : t ≤ 1) :
    t ≤ clamp s ↔ t ≤ s := by
  unfold clamp
  constructor
  · intro h
    have hm : t ≤ max (-1) s := le_trans h (min_le_right _ _)
    rcases le_or_lt s (-1) with hs | hs
    · rw [max_eq_left hs] at hm; linarith
    · rwa [max_eq_right hs.le] at hm
  · intro h
    exact le_min h2 (le_trans h (le_max_right _ _))

/-- The top-1 query on a non-empty table always returns a row. -/
theorem top1_eq_none_iff (key : Face → ℚ) (faces : List Face) :
    Recognition.top1 key faces = none ↔ faces = [] := by
  cases faces with
  | nil => simp [Recognition.top1]
  | cons f rest =>
    simp only [Recognition.top1]
    cases Recognition.top1 key rest with
    | none => simp
    | some g => by_cases h : key f ≤ key g <;> simp [h]

/-- The row returned by the top-1 query is a row of the table. -/
theorem top1_mem (key : Face → ℚ) :
    ∀ (faces : List Face) (g : Face), Recognition.top1 key faces = some g → g ∈ faces := by
  intro faces
  induction faces with
  | nil => intro g h; simp [Recognition.top1] at h
  | cons f rest ih =>
    intro g h
    cases htop : Recognition.top1 key rest with
    | none =>
      simp only [Recognition.top1, htop] at h
      simp at h
      simp [h]
    | some g0 =>
      simp only [Recognition.top1, htop] at h
      by_cases hle : key f ≤ key g0
      · simp [hle] at h
        simp [h]
      · simp [hle] at h
        exact List.mem_cons_of_mem f (h ▸ ih g0 htop)

/-- The row returned by the top-1 query minimizes the ordering key over the table. -/
theorem top1_min (key : Face → ℚ) :
    ∀ (faces : List Face) (g : Face), Recognition.top1 key faces = some g →
    ∀ f ∈ faces, key g ≤ key f := by
  intro faces
  induction faces with
  | nil => intro g h; simp [Recognition.top1] at h
  | cons f rest ih =>
    intro g h x hx
    cases htop : Recognition.top1 key rest with
    | none =>
      simp only [Recognition.top1, htop] at h
      simp at h
      have hnil : rest = [] := (top1_eq_none_iff key rest).mp htop
      subst hnil
      simp at hx
      simp [hx, h]
    | some g0 =>
      simp only [Recognition.top1, htop] at h
      rcases List.mem_cons.mp hx with hxf | hxr
      · by_cases hle : key f ≤ key g0
        · simp [hle] at h
          simp [hxf, h]
        · simp [hle] at h
          rw [hxf, ← h]
          exact le_of_lt (not_le.mp hle)
      · by_cases hle : key f ≤ key g0
        · simp [hle] at h
          exact le_trans (h ▸ hle) (ih g0 htop x hxr)
        · simp [hle] at h
          exact h ▸ ih g0 htop x hxr

/-- One step of the accumulator update of the similarity loop, phrased against the
row returned by the top-1 query. -/
def scanStep (g? : Option Face) (q : Embedding) (acc : Option Face) (bs : ℚ) :
    Option Face × ℚ :=
  match g? with
  | none => (acc, bs)
  | some g => if bs < dot q g.embedding then (some g, dot q g.embedding) else (acc, bs)

/-- The Python similarity loop computes exactly the (exact) top-1 answer: on a store
whose embeddings all have the query's dimension, the loop never raises, and its final
accumulator is the first row maximizing the dot product — equivalently, minimizing
the cosine distance — unless no row strictly beats the initial accumulator. -/
theorem scanLoop_eq_top1 (m : InsightFaceMatcher) (q : Embedding) :
    ∀ (faces : List Face) (acc : Option Face) (bs : ℚ),
    (∀ f ∈ faces, f.embedding.length = q.length) →
    PatchedRecognition.scanLoop m q faces acc bs =
      .ok (scanStep
            (Recognition.top1 (fun f => Recognition.cosine_distance q f.embedding) faces)
            q acc bs) := by
  intro faces
  induction faces with
  | nil => intro acc bs _; simp [PatchedRecognition.scanLoop, Recognition.top1, scanStep]
  | cons f rest ih =>
    intro acc bs hdim
    have hf : f.embedding.length = q.length := hdim f (List.mem_cons_self _ _)
    have hrest : ∀ x ∈ rest, x.embedding.length = q.length :=
      fun x hx => hdim x (List.mem_cons_of_mem _ hx)
    have hsim : m.similarity q f.embedding = .ok (dot q f.embedding) := by
      simp [InsightFaceMatcher.similarity, hf]
    unfold PatchedRecognition.scanLoop
    rw [hsim]
    simp only
    by_cases hbs : bs < dot q f.embedding
    · rw [if_pos hbs, ih (some f) (dot q f.embedding) hrest]
      simp only [Recognition.top1]
      cases htop : Recognition.top1 (fun x => Recognition.cosine_distance q x.embedding) rest with
      | none => simp [scanStep, hbs]
      | some g =>
        by_cases hkey : Recognition.cosine_distance q f.embedding ≤
            Recognition.cosine_distance q g.embedding
        · have hdg : dot q g.embedding ≤ dot q f.embedding := by
            unfold Recognition.cosine_distance at hkey; linarith
          simp [scanStep, hkey, not_lt.mpr hdg, hbs]
        · have hdg : dot q f.embedding < dot q g.embedding := by
            unfold Recognition.cosine_distance at hkey; push_neg at hkey; linarith
          simp [scanStep, hkey, hdg, lt_trans hbs hdg]
    · rw [if_neg hbs, ih acc bs hrest]
      simp only [Recognition.top1]
      cases htop : Recognition.top1 (fun x => Recognition.cosine_distance q x.embedding) rest with
      | none => simp [scanStep, hbs]
      | some g =>
        by_cases hkey : Recognition.cosine_distance q f.embedding ≤
            Recognition.cosine_distance q g.embedding
        · have hdg : dot q g.embedding ≤ dot q f.embedding := by
            unfold Recognition.cosine_distance at hkey; linarith
          have hng : ¬ bs < dot q g.embedding := fun hc => hbs (lt_of_lt_of_le hc hdg)
          simp [scanStep, hkey, hng, hbs]
        · simp [scanStep, hkey]

/-- Characterization of the indexed `recognize_user` when the top-1 query returns a
row. -/
theorem recognize_user_some (m : InsightFaceMatcher) (faces : List Face) (q : Embedding)
    (g : Face)
    (htop : Recognition.top1 (fun f => Recognition.cosine_distance q f.embedding) faces = some g) :
    Recognition.recognize_user m faces q =
      if (faces.all fun f => decide (f.embedding.length = q.length)) = true then
        if m.threshold ≤ 1 - Recognition.cosine_distance q g.embedding then
          .ok ⟨true, some g.user_id, clamp (1 - Recognition.cosine_distance q g.embedding)⟩
        else .ok ⟨false, none, clamp (1 - Recognition.cosine_distance q g.embedding)⟩
      else .error ⟨500, "Database error occurred"⟩ := by
  unfold Recognition.recognize_user
  rw [htop]

/-! ### Claim theorems -/

/-- C7: `InsightFaceMatcher.similarity` raises the shape-mismatch `ValueError` if and
only if the two embeddings have different lengths; on equal lengths it returns their
dot product; and it is symmetric: `similarity(a, b) = similarity(b, a)`. -/
theorem C7_similarity_contract (m : InsightFaceMatcher) (a b : Embedding) :
    ((∃ e, m.similarity a b = .error e) ↔ a.length ≠ b.length)
    ∧ m.similarity a b = m.similarity b a
    ∧ (a.length = b.length → m.similarity a b = .ok (dot a b)) := by
  refine ⟨⟨?_, ?_⟩, ?_, ?_⟩
  · rintro ⟨e, he⟩ hlen
    simp [InsightFaceMatcher.similarity, hlen] at he
  · intro hlen
    exact ⟨"Embeddings must have same shape",
      by simp [InsightFaceMatcher.similarity, hlen]⟩
  · by_cases hlen : a.length = b.length
    · unfold InsightFaceMatcher.similarity
      rw [if_pos hlen, if_pos hlen.symm, dot_comm a b]
    · unfold InsightFaceMatcher.similarity
      rw [if_neg hlen, if_neg (Ne.symm hlen)]
  · intro hlen
    simp [InsightFaceMatcher.similarity, hlen]

/-- C7 witness: the contract evaluated at the concrete equal-length embeddings
`[1, 2]` and `[3, 4]`. -/
theorem C7_similarity_contract_witness :
    ([1, 2] : Embedding).length = ([3, 4] : Embedding).length
    ∧ InsightFaceMatcher.similarity ⟨7/10⟩ [1, 2] [3, 4] = .ok (dot [1, 2] [3, 4]) :=
  ⟨rfl, (C7_similarity_contract ⟨7/10⟩ [1, 2] [3, 4]).2.2 rfl⟩

/-- C8: `InsightFaceMatcher.match` returns `similarity(a, b) >= threshold` whenever
the shapes agree, and the match decision is antitone in the threshold, both at the
matcher level and for `recognize_user`: raising the threshold from `t` to `t'` never
turns a non-match into a match, so for a fixed store and query the set of runs
classified `matched = true` can only shrink. -/
theorem C8_threshold_monotonicity (a b : Embedding) (t t' : ℚ)
    (hlen : a.length = b.length) (htt : t ≤ t') :
    (∀ m : InsightFaceMatcher, m.is_match a b = .ok (decide (m.threshold ≤ dot a b)))
    ∧ ((InsightFaceMatcher.mk t').is_match a b = .ok true →
        (InsightFaceMatcher.mk t).is_match a b = .ok true)
    ∧ (∀ (faces : List Face) (q : Embedding) (r' : RecognizeResponse),
        Recognition.recognize_user ⟨t'⟩ faces q = .ok r' → r'.matched = true →
        ∃ r : RecognizeResponse,
          Recognition.recognize_user ⟨t⟩ faces q = .ok r ∧ r.matched = true) := by
  refine ⟨?_, ?_, ?_⟩
  · intro m
    simp [InsightFaceMatcher.is_match, InsightFaceMatcher.similarity, hlen, Except.map]
  · intro h
    simp [InsightFaceMatcher.is_match, InsightFaceMatcher.similarity, hlen, Except.map,
      decide_eq_true_eq] at h ⊢
    linarith
  · intro faces q r' hrun hmatched
    unfold Recognition.recognize_user at hrun ⊢
    cases htop : Recognition.top1 (fun f => Recognition.cosine_distance q f.embedding) faces with
    | none =>
      simp only [htop] at hrun
      rw [Except.ok.injEq] at hrun
      subst hrun
      simp at hmatched
    | some g =>
      simp only [htop] at hrun ⊢
      split at hrun
      · rename_i hall
        split at hrun
        · rename_i hth
          have hts : t ≤ 1 - Recognition.cosine_distance q g.embedding := le_trans htt hth
          refine ⟨⟨true, some g.user_id, clamp (1 - Recognition.cosine_distance q g.embedding)⟩,
            ?_, rfl⟩
          rw [if_pos hall, if_pos hts]
        · rw [Except.ok.injEq] at hrun
          subst hrun
          simp at hmatched
      · simp at hrun

/-- C8 witness: threshold antitonicity exercised at the concrete thresholds 0.5 and
0.7 on identical unit embeddings. -/
theorem C8_threshold_monotonicity_witness :
    (InsightFaceMatcher.mk (1/2)).is_match [1, 0] [1, 0] = .ok true :=
  (C8_threshold_monotonicity [1, 0] [1, 0] (1/2) (7/10) rfl (by norm_num)).2.1
    (by simp [InsightFaceMatcher.is_match, InsightFaceMatcher.similarity, dot, Except.map]
        norm_num)

/-- C2 counterexample: `InsightFaceMatcher.similarity` performs no clamping — on the
equal-shape embeddings `[2]` and `[2]` it returns the raw dot product `4`, which is
outside `[-1, 1]`. -/
theorem C2_similarity_unclamped_counterexample :
    InsightFaceMatcher.similarity ⟨7/10⟩ [2] [2] = .ok 4 ∧ ¬ ((4 : ℚ) ≤ 1) := by
  constructor
  · simp [InsightFaceMatcher.similarity, dot]
    norm_num
  · norm_num

/-- C2 (amended): the similarity reported to callers through a `RecognizeResponse`
always lies in [-1, 1] — the defensive clamp is applied by `recognize_user` (both the
indexed and the exhaustive version) rather than by `InsightFaceMatcher.similarity`
itself — and self-similarity of a unit-normalized embedding (`dot a a = 1`) is
exactly 1. -/
theorem C2_reported_similarity_bounds :
    (∀ (m : InsightFaceMatcher) (faces : List Face) (q : Embedding) (r : RecognizeResponse),
        Recognition.recognize_user m faces q = .ok r →
        -1 ≤ r.similarity ∧ r.similarity ≤ 1)
    ∧ (∀ (m : InsightFaceMatcher) (faces : List Face) (q : Embedding) (r : RecognizeResponse),
        PatchedRecognition.recognize_user m faces q = .ok r →
        -1 ≤ r.similarity ∧ r.similarity ≤ 1)
    ∧ (∀ (m : InsightFaceMatcher) (a : Embedding), dot a a = 1 →
        m.similarity a a = .ok 1) := by
  refine ⟨?_, ?_, ?_⟩
  · intro m faces q r hrun
    unfold Recognition.recognize_user at hrun
    split at hrun
    · rw [Except.ok.injEq] at hrun
      subst hrun
      exact ⟨by norm_num, by norm_num⟩
    · split at hrun
      · split at hrun
        · rw [Except.ok.injEq] at hrun
          subst hrun
          exact ⟨neg_one_le_clamp _, clamp_le_one _⟩
        · rw [Except.ok.injEq] at hrun
          subst hrun
          exact ⟨neg_one_le_clamp _, clamp_le_one _⟩
      · simp at hrun
  · intro m faces q r hrun
    unfold PatchedRecognition.recognize_user at hrun
    split at hrun
    · rw [Except.ok.injEq] at hrun
      subst hrun
      exact ⟨by norm_num, by norm_num⟩
    · split at hrun
      · simp at hrun
      · split at hrun
        · rw [Except.ok.injEq] at hrun
          subst hrun
          exact ⟨neg_one_le_clamp _, clamp_le_one _⟩
        · split at hrun
          · simp at hrun
          · rw [Except.ok.injEq] at hrun
            subst hrun
            exact ⟨neg_one_le_clamp _, clamp_le_one _⟩
          · rw [Except.ok.injEq] at hrun
            subst hrun
            exact ⟨neg_one_le_clamp _, clamp_le_one _⟩
  · intro m a ha
    simp [InsightFaceMatcher.similarity, ha]

/-- C2 witness: the amended bounds evaluated on a concrete run against an empty
store. -/
theorem C2_reported_similarity_bounds_witness : -1 ≤ (0 : ℚ) ∧ (0 : ℚ) ≤ 1 :=
  C2_reported_similarity_bounds.1 ⟨7/10⟩ [] [1] ⟨false, none, 0⟩ rfl

/-- C4: on an empty store both implementations of `recognize_user` return the
empty-store sentinel `match=false, user_id=None, similarity=0.0` for every query and
raise no error: empty store is a legitimate non-error outcome. -/
theorem C4_empty_store_sentinel (m : InsightFaceMatcher) (q : Embedding) :
    Recognition.recognize_user m [] q = .ok ⟨false, none, 0⟩
    ∧ PatchedRecognition.recognize_user m [] q = .ok ⟨false, none, 0⟩ :=
  ⟨rfl, rfl⟩

/-- C5: on a non-empty store (the top-1 query returns row `g`) whose embeddings have
the query's dimension, with the configured threshold inside (-1, 1] (reference value
0.7): when the best candidate's clamped similarity is below the threshold,
`recognize_user` returns `matched=false, user_id=None` while still reporting the
clamped similarity (not the 0.0 sentinel); at or above the threshold it returns
`matched=true` with the candidate's owner id and the clamped similarity. -/
theorem C5_threshold_decision (m : InsightFaceMatcher) (faces : List Face)
    (q : Embedding) (g : Face)
    (htop : Recognition.top1 (fun f => Recognition.cosine_distance q f.embedding) faces = some g)
    (hdim : ∀ f ∈ faces, f.embedding.length = q.length)
    (ht1 : -1 < m.threshold) (ht2 : m.threshold ≤ 1) :
    (clamp (1 - Recognition.cosine_distance q g.embedding) < m.threshold →
      Recognition.recognize_user m faces q =
        .ok ⟨false, none, clamp (1 - Recognition.cosine_distance q g.embedding)⟩)
    ∧ (m.threshold ≤ clamp (1 - Recognition.cosine_distance q g.embedding) →
      Recognition.recognize_user m faces q =
        .ok ⟨true, some g.user_id, clamp (1 - Recognition.cosine_distance q g.embedding)⟩) := by
  have hall : (faces.all fun f => decide (f.embedding.length = q.length)) = true := by
    rw [List.all_eq_true]
    intro f hf
    exact decide_eq_true (hdim f hf)
  constructor
  · intro hlt
    have hnot : ¬ m.threshold ≤ 1 - Recognition.cosine_distance q g.embedding := by
      intro hle
      exact absurd ((le_clamp_iff _ ht1 ht2).mpr hle) (not_le.mpr hlt)
    rw [recognize_user_some m faces q g htop, if_pos hall, if_neg hnot]
  · intro hge
    have hle : m.threshold ≤ 1 - Recognition.cosine_distance q g.embedding :=
      (le_clamp_iff _ ht1 ht2).mp hge
    rw [recognize_user_some m faces q g htop, if_pos hall, if_pos hle]

/-- C5 witness: a one-face store with similarity 0 to the query and threshold 0.7
takes the below-threshold branch and reports the clamped similarity. -/
theorem C5_threshold_decision_witness :
    Recognition.recognize_user ⟨7/10⟩ [⟨1, 42, [0, 1], none⟩] [1, 0] =
      .ok ⟨false, none, clamp (1 - Recognition.cosine_distance [1, 0] [0, 1])⟩ :=
  (C5_threshold_decision ⟨7/10⟩ [⟨1, 42, [0, 1], none⟩] [1, 0] ⟨1, 42, [0, 1], none⟩
      rfl (by simp) (by norm_num) (by norm_num)).1
    (by norm_num [clamp, Recognition.cosine_distance, dot])

/-- C1: whenever every stored embedding has the query's dimension (the deployed
schema fixes both to D = 512) and the configured threshold exceeds -1 (reference
value 0.7), the exhaustive linear scan of `benchmarks/patched_recognition.py`
(Strategy A) and the indexed top-1 query of `app/services/recognition.py` answered
exactly (Strategy B) return identical `RecognizeResponse` values — in particular they
agree on the identity of the best match and produce results of the same shape. -/
theorem C1_strategy_equivalence (m : InsightFaceMatcher) (faces : List Face)
    (q : Embedding) (hdim : ∀ f ∈ faces, f.embedding.length = q.length)
    (ht : -1 < m.threshold) :
    PatchedRecognition.recognize_user m faces q = Recognition.recognize_user m faces q := by
  cases htop : Recognition.top1 (fun f => Recognition.cosine_distance q f.embedding) faces with
  | none =>
    have hnil : faces = [] := (top1_eq_none_iff _ _).mp htop
    subst hnil
    rfl
  | some g =>
    have hgmem : g ∈ faces := top1_mem _ faces g htop
    have hne : faces ≠ [] := List.ne_nil_of_mem hgmem
    have hglen : g.embedding.length = q.length := hdim g hgmem
    have hall : (faces.all fun f => decide (f.embedding.length = q.length)) = true := by
      rw [List.all_eq_true]
      intro f hf
      exact decide_eq_true (hdim f hf)
    have hisE : ¬ (faces.isEmpty = true) := by
      cases faces with
      | nil => exact absurd rfl hne
      | cons a l => simp
    have hsim : m.is_match q g.embedding = .ok (decide (m.threshold ≤ dot q g.embedding)) := by
      simp [InsightFaceMatcher.is_match, InsightFaceMatcher.similarity, hglen, Except.map]
    rw [recognize_user_some m faces q g htop, if_pos hall]
    unfold PatchedRecognition.recognize_user
    rw [if_neg hisE, scanLoop_eq_top1 m q faces none (-1) hdim, htop]
    simp only [scanStep]
    by_cases hbest : (-1 : ℚ) < dot q g.embedding
    · rw [if_pos hbest]
      by_cases hth : m.threshold ≤ dot q g.embedding
      · have hth2 : m.threshold ≤ 1 - Recognition.cosine_distance q g.embedding := by
          unfold Recognition.cosine_distance; linarith
        rw [if_pos hth2]
        simp [hsim, hth, Recognition.cosine_distance, sub_sub_cancel]
      · have hth2 : ¬ m.threshold ≤ 1 - Recognition.cosine_distance q g.embedding := by
          unfold Recognition.cosine_distance
          intro hc
          exact hth (by linarith)
        rw [if_neg hth2]
        simp [hsim, hth, Recognition.cosine_distance, sub_sub_cancel]
    · rw [if_neg hbest]
      have hdotle : dot q g.embedding ≤ -1 := not_lt.mp hbest
      have hthn : ¬ m.threshold ≤ 1 - Recognition.cosine_distance q g.embedding := by
        unfold Recognition.cosine_distance
        intro hc
        have : m.threshold ≤ dot q g.embedding := by linarith
        linarith
      rw [if_neg hthn]
      have h1 : clamp (-1) = -1 := clamp_of_le_neg_one (le_refl _)
      have h2 : clamp (1 - Recognition.cosine_distance q g.embedding) = -1 := by
        unfold Recognition.cosine_distance
        rw [sub_sub_cancel]
        exact clamp_of_le_neg_one hdotle
      simp [h1, h2]

/-- C1 witness: the two strategies evaluated on a concrete two-face store. -/
theorem C1_strategy_equivalence_witness :
    PatchedRecognition.recognize_user ⟨7/10⟩
        [⟨1, 10, [0, 1], none⟩, ⟨2, 20, [1, 0], none⟩] [1, 0] =
      Recognition.recognize_user ⟨7/10⟩
        [⟨1, 10, [0, 1], none⟩, ⟨2, 20, [1, 0], none⟩] [1, 0] :=
  C1_strategy_equivalence ⟨7/10⟩ [⟨1, 10, [0, 1], none⟩, ⟨2, 20, [1, 0], none⟩] [1, 0]
    (by simp) (by norm_num)

/-- C6 counterexample: on the non-empty store holding the single embedding `[-1]`,
whose similarity to the query `[1]` is exactly -1.0 (the loop's initial
`best_similarity`), the scan loop finishes with `best_match = None`: no stored
embedding is returned at all, although `[-1]` attains the maximum similarity. -/
theorem C6_scan_loop_counterexample :
    PatchedRecognition.scanLoop ⟨7/10⟩ [1] [⟨1, 42, [-1], none⟩] none (-1) = .ok (none, -1)
    ∧ ([⟨1, 42, [-1], none⟩] : List Face) ≠ [] := by
  constructor
  · simp [PatchedRecognition.scanLoop, InsightFaceMatcher.similarity, dot]
  · simp

/-- C6 (amended): whenever some stored embedding has similarity strictly above the
loop's initial sentinel -1.0 (for unit-normalized vectors this excludes only the
exactly antipodal store), the exhaustive loop returns a stored embedding attaining
the maximum similarity over the whole store together with that maximum value (the
earliest row among ties, any of which is acceptable); when every similarity is at or
below -1.0 it instead returns `best_match = None` with the sentinel value -1.0. -/
theorem C6_scan_finds_maximum (m : InsightFaceMatcher) (q : Embedding) (faces : List Face)
    (hdim : ∀ f ∈ faces, f.embedding.length = q.length)
    (hx : ∃ f ∈ faces, -1 < dot q f.embedding) :
    ∃ g ∈ faces,
      PatchedRecognition.scanLoop m q faces none (-1) = .ok (some g, dot q g.embedding)
      ∧ ∀ f ∈ faces, dot q f.embedding ≤ dot q g.embedding := by
  obtain ⟨f0, hf0m, hf0⟩ := hx
  cases htop : Recognition.top1 (fun f => Recognition.cosine_distance q f.embedding) faces with
  | none => exact absurd ((top1_eq_none_iff _ _).mp htop) (List.ne_nil_of_mem hf0m)
  | some g =>
    have hgmax : ∀ f ∈ faces, dot q f.embedding ≤ dot q g.embedding := by
      intro f hf
      have hkey := top1_min _ faces g htop f hf
      unfold Recognition.cosine_distance at hkey
      linarith
    have hbest : (-1 : ℚ) < dot q g.embedding := lt_of_lt_of_le hf0 (hgmax f0 hf0m)
    refine ⟨g, top1_mem _ faces g htop, ?_, hgmax⟩
    rw [scanLoop_eq_top1 m q faces none (-1) hdim, htop]
    simp [scanStep, hbest]

/-- C6 witness: the amended maximum property on a concrete two-face store. -/
theorem C6_scan_finds_maximum_witness :
    ∃ g ∈ ([⟨1, 5, [0, 1], none⟩, ⟨2, 6, [1, 0], none⟩] : List Face),
      PatchedRecognition.scanLoop ⟨7/10⟩ [1, 0] [⟨1, 5, [0, 1], none⟩, ⟨2, 6, [1, 0], none⟩]
          none (-1) = .ok (some g, dot [1, 0] g.embedding)
      ∧ ∀ f ∈ ([⟨1, 5, [0, 1], none⟩, ⟨2, 6, [1, 0], none⟩] : List Face),
          dot [1, 0] f.embedding ≤ dot [1, 0] g.embedding :=
  C6_scan_finds_maximum ⟨7/10⟩ [1, 0] [⟨1, 5, [0, 1], none⟩, ⟨2, 6, [1, 0], none⟩]
    (by simp) ⟨⟨2, 6, [1, 0], none⟩, by simp, by norm_num [dot]⟩

/-- C3 counterexample: with a query embedding of the wrong dimension (`[1]` against a
store of dimension 2) the recognition path still executes the store query (the flag
is `true`) and fails with the database-layer HTTP 500 — not with an
`InvalidEmbedding` error, which does not exist in the code; no dimension validation
precedes the store access. -/
theorem C3_no_dimension_validation_counterexample :
    Recognition.recognize_request none (.ok [1]) ⟨7/10⟩ [⟨1, 42, [1, 0], none⟩] =
      (true, .error ⟨500, "Database error occurred"⟩) := by
  rfl

/-- C3 (amended): `recognize_user` performs no dimension validation before the
store is queried: for every store containing an embedding whose dimension differs
from the query's, the database query is executed anyway and the request fails with
HTTP 500 "Database error occurred" surfaced from the store layer, not with
`InvalidEmbedding`. -/
theorem C3_store_accessed_on_bad_dimension (m : InsightFaceMatcher) (faces : List Face)
    (q : Embedding) (hbad : ∃ f ∈ faces, f.embedding.length ≠ q.length) :
    Recognition.recognize_request none (.ok q) m faces =
      (true, .error ⟨500, "Database error occurred"⟩) := by
  obtain ⟨f0, hmem, hlen⟩ := hbad
  have hstep : Recognition.recognize_request none (.ok q) m faces =
      (true, Recognition.recognize_user m faces q) := rfl
  rw [hstep]
  cases htop : Recognition.top1 (fun f => Recognition.cosine_distance q f.embedding) faces with
  | none => exact absurd ((top1_eq_none_iff _ _).mp htop) (List.ne_nil_of_mem hmem)
  | some g =>
    have hall : ¬ ((faces.all fun f => decide (f.embedding.length = q.length)) = true) := by
      rw [List.all_eq_true]
      intro hc
      exact hlen (of_decide_eq_true (hc f0 hmem))
    rw [recognize_user_some m faces q g htop, if_neg hall]

/-- C3 witness: the amended no-validation behaviour at a concrete store and
wrong-dimension query. -/
theorem C3_store_accessed_on_bad_dimension_witness :
    Recognition.recognize_request none (.ok [1]) ⟨1/2⟩ [⟨3, 9, [1, 0, 0], none⟩] =
      (true, .error ⟨500, "Database error occurred"⟩) :=
  C3_store_accessed_on_bad_dimension ⟨1/2⟩ [⟨3, 9, [1, 0, 0], none⟩] [1]
    ⟨⟨3, 9, [1, 0, 0], none⟩, by simp, by simp⟩

/-- C9: registration is atomic with respect to the store — for every combination of
injected failure outcomes and every initial store, a registration request either
leaves the committed store unchanged and reports an error, or commits exactly one new
`User` row together with exactly one new `Face` row owned by it in the same commit,
the response carrying the new user's id. No partial record ever remains. -/
theorem C9_registration_atomic (validationError : Option String) (embed : EmbedOutcome)
    (name surname : String) (auth_user_id newUserId newFaceId : Nat) (flushError : Bool)
    (db : Registration.Store) :
    (∃ e, Registration.register_request validationError embed name surname auth_user_id
        newUserId newFaceId flushError db = (db, .error e))
    ∨ (∃ u f resp,
        Registration.register_request validationError embed name surname auth_user_id
          newUserId newFaceId flushError db =
          (⟨db.users ++ [u], db.faces ++ [f]⟩, .ok resp)
        ∧ f.user_id = u.user_id ∧ u.auth_user_id = auth_user_id
        ∧ resp.user_id = u.user_id ∧ resp.is_registered = true) := by
  cases validationError with
  | some msg => exact .inl ⟨⟨500, "Registration failed"⟩, rfl⟩
  | none =>
    cases embed with
    | noFace => exact .inl ⟨⟨422, "No face detected in the provided image"⟩, rfl⟩
    | multipleFaces n => exact .inl ⟨⟨422, multipleFacesMsg n⟩, rfl⟩
    | processingError msg => exact .inl ⟨⟨422, msg⟩, rfl⟩
    | ok embedding =>
      by_cases hdup : (db.users.any fun u => u.auth_user_id == auth_user_id) = true
      · left
        refine ⟨⟨409, "Biometric data already registered. Delete existing profile first."⟩, ?_⟩
        simp [Registration.register_request, Registration.register_user, hdup]
      · cases flushError with
        | true =>
          left
          refine ⟨⟨500, "Database error occurred"⟩, ?_⟩
          simp [Registration.register_request, Registration.register_user, hdup]
        | false =>
          right
          refine ⟨⟨newUserId, name, surname, auth_user_id⟩,
            ⟨newFaceId, newUserId, embedding, none⟩, ⟨newUserId, true⟩, ?_, rfl, rfl, rfl, rfl⟩
          simp [Registration.register_request, Registration.register_user, hdup]

/-- C10: when the authenticated user already has a biometric record in the store, a
registration request with a valid single-face image fails with HTTP 409 Conflict
("Biometric data already registered. Delete existing profile first.") before any
`User` or `Face` row is created, and the committed store is unchanged —
re-registration therefore requires an explicit delete first. -/
theorem C10_duplicate_registration_conflict (embedding : Embedding)
    (name surname : String) (auth_user_id newUserId newFaceId : Nat) (flushError : Bool)
    (db : Registration.Store)
    (hdup : ∃ u ∈ db.users, u.auth_user_id = auth_user_id) :
    Registration.register_request none (.ok embedding) name surname auth_user_id
      newUserId newFaceId flushError db =
      (db, .error ⟨409, "Biometric data already registered. Delete existing profile first."⟩) := by
  obtain ⟨u, hum, hu⟩ := hdup
  have hany : (db.users.any fun u => u.auth_user_id == auth_user_id) = true := by
    rw [List.any_eq_true]
    exact ⟨u, hum, by simp [hu]⟩
  simp [Registration.register_request, Registration.register_user, hany]

/-- C10 witness: the duplicate check fires on a concrete store already holding a
user with the requesting `auth_user_id`. -/
theorem C10_duplicate_registration_conflict_witness :
    Registration.register_request none (.ok [1, 0]) "Ada" "Lovelace" 5 77 88 false
      ⟨[⟨3, "Ada", "Lovelace", 5⟩], []⟩ =
      (⟨[⟨3, "Ada", "Lovelace", 5⟩], []⟩,
        .error ⟨409, "Biometric data already registered. Delete existing profile first."⟩) :=
  C10_duplicate_registration_conflict [1, 0] "Ada" "Lovelace" 5 77 88 false
    ⟨[⟨3, "Ada", "Lovelace", 5⟩], []⟩ ⟨⟨3, "Ada", "Lovelace", 5⟩, by simp, rfl⟩

end FaceRec
